import Mathlib

/-!
Shallow embedding of the ECOcensus financial aggregation logic.

The embedded code is the `calculateStats` function of the Dashboard view
(the copy living next to the Landing view, referred to below as the
rolling-average variant), the older near-duplicate `calculateStats` in
`src/components/Dashboard.jsx` (the latest-year variant), and the
financial-overview rendering of `src/components/OrgProfile.jsx`.

Modelling conventions:
* JavaScript numbers coming from the database are currency amounts and
  fiscal years; they are modelled as exact rationals and naturals.
* A nullable numeric column is `Option ℚ`; the JS idiom `x || 0` (and the
  coercion of `null` to `0` in arithmetic) is `Option.getD x 0`.
* `array.sort(cmp)` with comparator `(a, b) => b.year - a.year` is a stable
  sort by the total preorder `newerFirst`; we use `List.insertionSort`,
  which is stable.
* `Object.values` of an object whose keys are the (integer) fiscal years
  enumerates those keys in ascending numeric order per the ECMAScript
  own-property-key order, independently of insertion order; `sortedYears`
  models that enumeration directly.
* The object `orgHealth`, keyed by organization id, is modelled as the list
  of its values in organization order (`List.filterMap`); ids are database
  primary keys, so each qualifying organization contributes one entry, and
  none of the properties proved below depends on enumeration order.
* An expression that throws a TypeError at runtime (reading a field of
  `undefined`, calling a method of `null`) is modelled in `Except String`,
  with the error value standing for the thrown exception.
-/

namespace Ecocensus

/-- A row of the financials table: organization foreign key, fiscal year and
the three nullable currency columns. -/
structure FinRecord where
  organization_id : Nat
  year : Nat
  revenue : Option ℚ
  expenses : Option ℚ
  assets : Option ℚ
deriving DecidableEq, Repr

/-- A row of the organizations table (the fields the aggregation reads). -/
structure Org where
  id : Nat
  name : String
deriving DecidableEq, Repr

/-- The year set of the rolling-average `calculateStats`:
`[...new Set(financials.map(f => f.year))].filter(year => year <= 2023)`. -/
def keptYears (fs : List FinRecord) : List Nat :=
  ((fs.map FinRecord.year).dedup).filter (fun y => y ≤ 2023)

/-- The year sequence of `Object.values(byYear)`: the kept years enumerated
in ascending numeric (own-property-key) order. -/
def sortedYears (fs : List FinRecord) : List Nat :=
  (keptYears fs).insertionSort (· ≤ ·)

/-- Final revenue total of the `byYear[y]` cell after the
`financials.forEach` loop: every record with `f.year = y` contributed
`f.revenue || 0`. -/
def cellRevenue (fs : List FinRecord) (y : Nat) : ℚ :=
  fs.foldl (fun s f => if f.year = y then s + f.revenue.getD 0 else s) 0

/-- Final expenses total of the `byYear[y]` cell. -/
def cellExpenses (fs : List FinRecord) (y : Nat) : ℚ :=
  fs.foldl (fun s f => if f.year = y then s + f.expenses.getD 0 else s) 0

/-- Final assets total of the `byYear[y]` cell. -/
def cellAssets (fs : List FinRecord) (y : Nat) : ℚ :=
  fs.foldl (fun s f => if f.year = y then s + f.assets.getD 0 else s) 0

/-- One entry of the `revenueByYear` series. -/
structure YearPoint where
  year : Nat
  revenue : ℚ
  expenses : ℚ
deriving DecidableEq, Repr

/-- `revenueByYear = Object.values(byYear).map(y => ({year, revenue, expenses}))`. -/
def revenueByYear (fs : List FinRecord) : List YearPoint :=
  (sortedYears fs).map (fun y => ⟨y, cellRevenue fs y, cellExpenses fs y⟩)

/-- The sort order of `.sort((a, b) => b.year - a.year)`: larger years first. -/
def newerFirst (a b : FinRecord) : Prop := b.year ≤ a.year

instance : DecidableRel newerFirst :=
  fun a b => inferInstanceAs (Decidable (b.year ≤ a.year))

instance : IsTotal FinRecord newerFirst :=
  ⟨fun a b => Nat.le_total b.year a.year⟩

instance : IsTrans FinRecord newerFirst :=
  ⟨fun _ _ _ h1 h2 => le_trans h2 h1⟩

/-- `financials.filter(f => f.organization_id === org.id).sort((a, b) => b.year - a.year)`. -/
def orgFinancials (fs : List FinRecord) (oid : Nat) : List FinRecord :=
  (fs.filter (fun f => f.organization_id = oid)).insertionSort newerFirst

/-- `recentYears = orgFinancials.slice(0, 3)` — the rolling window. -/
def window (fs : List FinRecord) (oid : Nat) : List FinRecord :=
  (orgFinancials fs oid).take 3

/-- `recentYears.reduce((sum, f) => sum + (f.revenue || 0), 0) / recentYears.length`. -/
def avgRevenue (fs : List FinRecord) (oid : Nat) : ℚ :=
  (window fs oid).foldl (fun s f => s + f.revenue.getD 0) 0 / (window fs oid).length

/-- `recentYears.reduce((sum, f) => sum + (f.expenses || 0), 0) / recentYears.length`. -/
def avgExpenses (fs : List FinRecord) (oid : Nat) : ℚ :=
  (window fs oid).foldl (fun s f => s + f.expenses.getD 0) 0 / (window fs oid).length

/-- `avgRevenue > 0 ? (avgMargin / avgRevenue) * 100 : 0`. -/
def marginPercent (fs : List FinRecord) (oid : Nat) : ℚ :=
  if 0 < avgRevenue fs oid then
    (avgRevenue fs oid - avgExpenses fs oid) / avgRevenue fs oid * 100
  else 0

/-- The classification chain of the rolling-average variant:
`let health = 'healthy'; if (m < -5) health = 'at-risk'; else if (m < 5) health = 'stable'`. -/
def classify (m : ℚ) : String :=
  if m < -5 then "at-risk" else if m < 5 then "stable" else "healthy"

/-- Value stored at `orgHealth[org.id]` (the fields the downstream
aggregation reads; the spread of the organization row contributes the
id and name fields). -/
structure HealthSummary where
  id : Nat
  name : String
  health : String
  revenue : ℚ
  expenses : ℚ
  assets : ℚ
  margin : ℚ
  yearsAnalyzed : List Nat
deriving DecidableEq, Repr

/-- The body of `orgs.forEach` in the rolling-average variant: organizations
with no financial records are skipped, otherwise the rolling averages, the
classification and the latest-year assets are stored. -/
def mkSummary (fs : List FinRecord) (o : Org) : Option HealthSummary :=
  match (orgFinancials fs o.id).head? with
  | none => none
  | some latest =>
    some
      { id := o.id
        name := o.name
        health := classify (marginPercent fs o.id)
        revenue := avgRevenue fs o.id
        expenses := avgExpenses fs o.id
        assets := latest.assets.getD 0
        margin := marginPercent fs o.id
        yearsAnalyzed := (window fs o.id).map FinRecord.year }

/-- `Object.values(orgHealth)` (ids are primary keys, see the header note). -/
def orgHealthValues (orgs : List Org) (fs : List FinRecord) : List HealthSummary :=
  orgs.filterMap (mkSummary fs)

/-- `healthCounts`: the three filtered counts over `Object.values(orgHealth)`,
as (healthy, stable, atRisk). -/
def healthCounts (vals : List HealthSummary) : Nat × Nat × Nat :=
  ((vals.filter (fun o => o.health = "healthy")).length,
   (vals.filter (fun o => o.health = "stable")).length,
   (vals.filter (fun o => o.health = "at-risk")).length)

/-- One step of the `sizeDistribution` forEach, as (small, medium, large). -/
def sizeStep (c : Nat × Nat × Nat) (o : HealthSummary) : Nat × Nat × Nat :=
  if o.revenue < 100000 then (c.1 + 1, c.2.1, c.2.2)
  else if o.revenue < 1000000 then (c.1, c.2.1 + 1, c.2.2)
  else (c.1, c.2.1, c.2.2 + 1)

/-- `sizeDistribution` after the forEach over `Object.values(orgHealth)`. -/
def sizeDistribution (vals : List HealthSummary) : Nat × Nat × Nat :=
  vals.foldl sizeStep (0, 0, 0)

/-- Comparator `(a, b) => b.revenue - a.revenue`. -/
def byRevenueDesc (a b : HealthSummary) : Prop := b.revenue ≤ a.revenue

instance : DecidableRel byRevenueDesc :=
  fun a b => inferInstanceAs (Decidable (b.revenue ≤ a.revenue))

/-- Comparator `(a, b) => b.assets - a.assets`. -/
def byAssetsDesc (a b : HealthSummary) : Prop := b.assets ≤ a.assets

instance : DecidableRel byAssetsDesc :=
  fun a b => inferInstanceAs (Decidable (b.assets ≤ a.assets))

/-- Comparator `(a, b) => b.margin - a.margin`. -/
def byMarginDesc (a b : HealthSummary) : Prop := b.margin ≤ a.margin

instance : DecidableRel byMarginDesc :=
  fun a b => inferInstanceAs (Decidable (b.margin ≤ a.margin))

/-- Comparator `(a, b) => a.margin - b.margin`. -/
def byMarginAsc (a b : HealthSummary) : Prop := a.margin ≤ b.margin

instance : DecidableRel byMarginAsc :=
  fun a b => inferInstanceAs (Decidable (a.margin ≤ b.margin))

/-- `top10Revenue = Object.values(orgHealth).sort(...).slice(0, 10)`. -/
def top10Revenue (vals : List HealthSummary) : List HealthSummary :=
  (vals.insertionSort byRevenueDesc).take 10

/-- `top10Assets = ...filter(o => o.assets > 0).sort(...).slice(0, 10)`. -/
def top10Assets (vals : List HealthSummary) : List HealthSummary :=
  ((vals.filter (fun o => 0 < o.assets)).insertionSort byAssetsDesc).take 10

/-- `strongest = ...filter(o => o.revenue >= 50000).sort(...).slice(0, 5)`. -/
def strongest (vals : List HealthSummary) : List HealthSummary :=
  ((vals.filter (fun o => 50000 ≤ o.revenue)).insertionSort byMarginDesc).take 5

/-- `weakest = ...filter(o => o.revenue >= 50000).sort(...).slice(0, 5)`. -/
def weakest (vals : List HealthSummary) : List HealthSummary :=
  ((vals.filter (fun o => 50000 ≤ o.revenue)).insertionSort byMarginAsc).take 5

/-- The returned statistics object of the rolling-average `calculateStats`. -/
structure Stats where
  totalRevenue : ℚ
  totalExpenses : ℚ
  totalAssets : ℚ
  orgCount : Nat
  revenueByYear : List YearPoint
  healthCounts : Nat × Nat × Nat
  sizeDistribution : Nat × Nat × Nat
  top10Revenue : List HealthSummary
  top10Assets : List HealthSummary
  strongest : List HealthSummary
  weakest : List HealthSummary
deriving DecidableEq, Repr

/-- The rolling-average `calculateStats`. `latestYear = Math.max(...years)`
evaluates to negative infinity when the year set is empty, `byYear[latestYear]`
is then `undefined`, and building the result object throws a TypeError on
`latestData.revenue`; that control flow is the `Except.error` branch. When
the year set is nonempty the maximum year is one of the object keys and the
result object is built. -/
def calculateStats (orgs : List Org) (fs : List FinRecord) : Except String Stats :=
  match (keptYears fs).max? with
  | none => Except.error "TypeError"
  | some latestYear =>
    Except.ok
      { totalRevenue := cellRevenue fs latestYear
        totalExpenses := cellExpenses fs latestYear
        totalAssets := cellAssets fs latestYear
        orgCount := orgs.length
        revenueByYear := revenueByYear fs
        healthCounts := healthCounts (orgHealthValues orgs fs)
        sizeDistribution := sizeDistribution (orgHealthValues orgs fs)
        top10Revenue := top10Revenue (orgHealthValues orgs fs)
        top10Assets := top10Assets (orgHealthValues orgs fs)
        strongest := strongest (orgHealthValues orgs fs)
        weakest := weakest (orgHealthValues orgs fs) }

/-- The classification chain of the latest-year variant in
`src/components/Dashboard.jsx`:
`if (m < -10) health = 'at-risk'; else if (m < 5) health = 'stable'`. -/
def dashClassify (m : ℚ) : String :=
  if m < -10 then "at-risk" else if m < 5 then "stable" else "healthy"

/-- Health category assigned by the latest-year variant: margin taken from
the single most recent record (`latest.revenue - latest.expenses`, null
coercing to 0), guarded by `latest.revenue > 0`. -/
def dashHealth (fs : List FinRecord) (o : Org) : Option String :=
  match (orgFinancials fs o.id).head? with
  | none => none
  | some latest =>
    let rev := latest.revenue.getD 0
    let mP := if 0 < rev then (rev - latest.expenses.getD 0) / rev * 100 else 0
    some (dashClassify mP)

/-- `x.toLocaleString()` on a nullable amount: throws a TypeError when the
stored value is null, otherwise renders the number. -/
def toLocaleString (v : Option ℚ) : Except String ℚ :=
  match v with
  | none => Except.error "TypeError"
  | some q => Except.ok q

/-- One row of the detailed-financials table in OrgProfile:
`f.revenue.toLocaleString()`, `f.expenses.toLocaleString()`,
`f.assets.toLocaleString()`. -/
def renderRow (f : FinRecord) : Except String (Nat × ℚ × ℚ × ℚ) := do
  let rev ← toLocaleString f.revenue
  let exp ← toLocaleString f.expenses
  let ast ← toLocaleString f.assets
  pure (f.year, rev, exp, ast)

/-- The financial-overview section of OrgProfile. The financials list arrives
sorted by year descending, so its head is the most recent record. The empty
case renders the no-data paragraph; otherwise the stat cards read
`financials[0].revenue.toLocaleString()` and
`financials[0].assets.toLocaleString()` and the table renders every row. -/
def renderFinancialOverview (financials : List FinRecord) :
    Except String (List (Nat × ℚ × ℚ × ℚ)) :=
  match financials.head? with
  | none => Except.ok []
  | some latest => do
    let _ ← toLocaleString latest.revenue
    let _ ← toLocaleString latest.assets
    financials.mapM renderRow

/-! Concrete sample inputs used by the evaluation theorems and witnesses. -/

/-- A sample organization. -/
def oA : Org := ⟨1, "A"⟩

/-- A second sample organization. -/
def oB : Org := ⟨2, "B"⟩

/-- One record whose margin percentage is exactly 5: revenue 100, expenses 95. -/
def sampleBoundary : List FinRecord := [⟨1, 2023, some 100, some 95, some 10⟩]

/-- One record dated after the 2023 cutoff, so the kept year set is empty. -/
def sampleCutoff : List FinRecord := [⟨1, 2024, some 5, some 3, some 2⟩]

/-- One record with margin percentage -7, between the two at-risk thresholds. -/
def sampleDiverge : List FinRecord := [⟨1, 2022, some 100, some 107, some 10⟩]

/-- Four records for organization 1 (years 2018 to 2021, unsorted) and one
for organization 2. -/
def sampleWindow : List FinRecord :=
  [⟨1, 2019, some 10, some 5, some 1⟩,
   ⟨1, 2021, some 30, some 10, some 2⟩,
   ⟨1, 2020, some 20, some 15, none⟩,
   ⟨1, 2018, some 40, some 40, some 4⟩,
   ⟨2, 2022, some 7, some 7, some 7⟩]

/-- A single record whose assets column is null. -/
def sampleNullAssets : List FinRecord := [⟨1, 2020, some 100, none, none⟩]

/-- The summary the rolling-average variant computes for `oA` over
`sampleNullAssets`. -/
def summaryNullAssets : HealthSummary := ⟨1, "A", "healthy", 100, 0, 0, 100, [2020]⟩

/-- Two organizations, of which only the second has a financial record. -/
def sampleOrgs : List Org := [oA, oB]

/-- One record belonging to organization 2. -/
def sampleOrgsFin : List FinRecord := [⟨2, 2022, some 10, some 4, some 3⟩]

/-- A single record with null revenue, giving average revenue 0. -/
def sampleZeroRevenue : List FinRecord := [⟨1, 2020, none, some 5, some 2⟩]

/-- An OrgProfile financials list whose most recent record has null revenue. -/
def sampleProfile : List FinRecord := [⟨1, 2022, none, some 5, some 3⟩]

/-! ## Theorems -/

/-- Folding a conditional accumulation over a list equals the sum of the
mapped values of the matching records, for any starting accumulator. -/
theorem foldl_if_year_eq_sum (g : FinRecord → ℚ) (y : Nat) (l : List FinRecord) :
    ∀ s : ℚ, l.foldl (fun s f => if f.year = y then s + g f else s) s
      = s + ((l.filter (fun f => f.year = y)).map g).sum := by
  induction l with
  | nil => intro s; simp
  | cons f t ih =>
    intro s
    by_cases h : f.year = y
    · simp only [List.foldl_cons, List.filter_cons, h]
      simp [ih]
      ring
    · simp only [List.foldl_cons, List.filter_cons, h]
      simp [h, ih]

/-- Folding an unconditional accumulation equals the mapped sum. -/
theorem foldl_add_eq_sum (g : FinRecord → ℚ) (l : List FinRecord) :
    ∀ s : ℚ, l.foldl (fun s f => s + g f) s = s + (l.map g).sum := by
  induction l with
  | nil => intro s; simp
  | cons f t ih => intro s; simp [ih]; ring

/-- The per-year revenue cell is the sum of the matching records. -/
theorem cellRevenue_eq_sum (fs : List FinRecord) (y : Nat) :
    cellRevenue fs y
      = ((fs.filter (fun f => f.year = y)).map (fun f => Option.getD f.revenue 0)).sum := by
  simpa using foldl_if_year_eq_sum (fun f => Option.getD f.revenue 0) y fs 0

/-- The per-year expenses cell is the sum of the matching records. -/
theorem cellExpenses_eq_sum (fs : List FinRecord) (y : Nat) :
    cellExpenses fs y
      = ((fs.filter (fun f => f.year = y)).map (fun f => Option.getD f.expenses 0)).sum := by
  simpa using foldl_if_year_eq_sum (fun f => Option.getD f.expenses 0) y fs 0

/-- The rolling average of revenue is the mean over the window. -/
theorem avgRevenue_eq_mean (fs : List FinRecord) (oid : Nat) :
    avgRevenue fs oid
      = ((window fs oid).map (fun f => Option.getD f.revenue 0)).sum / (window fs oid).length := by
  simp [avgRevenue, foldl_add_eq_sum]

/-- The rolling average of expenses is the mean over the window. -/
theorem avgExpenses_eq_mean (fs : List FinRecord) (oid : Nat) :
    avgExpenses fs oid
      = ((window fs oid).map (fun f => Option.getD f.expenses 0)).sum / (window fs oid).length := by
  simp [avgExpenses, foldl_add_eq_sum]

/-- The enumerated year sequence is strictly ascending: it is a sorted
enumeration of a duplicate-free year set. -/
theorem sortedYears_strict_ascending (fs : List FinRecord) :
    List.Pairwise (· < ·) (sortedYears fs) := by
  have hnd : (sortedYears fs).Nodup :=
    ((List.perm_insertionSort (· ≤ ·) (keptYears fs)).nodup_iff).mpr
      ((List.nodup_dedup _).filter _)
  have hs : List.Pairwise (· ≤ ·) (sortedYears fs) :=
    List.sorted_insertionSort (· ≤ ·) (keptYears fs)
  exact (hs.and hnd).imp (fun h => lt_of_le_of_ne h.1 h.2)

/-- Every enumerated year is a kept year, hence at most 2023. -/
theorem sortedYears_le_cutoff (fs : List FinRecord) :
    ∀ y ∈ sortedYears fs, y ≤ 2023 := by
  intro y hy
  have hk : y ∈ keptYears fs :=
    ((List.perm_insertionSort (· ≤ ·) (keptYears fs)).mem_iff).mp hy
  have := List.mem_filter.mp hk
  simpa using this.2

/-- C4: the revenueByYear series has strictly ascending years, every year is
at most 2023, and each per-year revenue and expenses value is the arithmetic
sum over the records of that year with null treated as 0. -/
theorem revenueByYear_sorted_bounded_sums (fs : List FinRecord) :
    List.Pairwise (· < ·) ((revenueByYear fs).map YearPoint.year) ∧
    ∀ p ∈ revenueByYear fs, p.year ≤ 2023 ∧
      p.revenue
        = ((fs.filter (fun f => f.year = p.year)).map (fun f => Option.getD f.revenue 0)).sum ∧
      p.expenses
        = ((fs.filter (fun f => f.year = p.year)).map (fun f => Option.getD f.expenses 0)).sum := by
  constructor
  · have := sortedYears_strict_ascending fs
    simpa [revenueByYear, List.pairwise_map] using this
  · intro p hp
    obtain ⟨y, hy, rfl⟩ := List.mem_map.mp hp
    exact ⟨sortedYears_le_cutoff fs y hy, cellRevenue_eq_sum fs y, cellExpenses_eq_sum fs y⟩

/-- C1: evaluation of the rolling-average classifier at its boundary. For an
organization whose margin percentage is exactly 5, the code classifies
"healthy", whereas the spec (and the comment block right above the threshold
chain) places margin exactly 5 in "stable". -/
theorem margin_exactly_five_classified_healthy :
    (orgHealthValues [oA] sampleBoundary).map (fun s => (s.margin, s.health))
      = [(5, "healthy")] := by
  with_unfolding_all rfl

/-- C2: with an empty year set (no financial records at all, or none with
year at most 2023), the aggregation reaches Math.max of an empty set and
throws a TypeError instead of returning an explicit empty result. -/
theorem empty_year_set_throws :
    calculateStats [] [] = Except.error "TypeError" ∧
    calculateStats [oA] sampleCutoff = Except.error "TypeError" :=
  ⟨rfl, rfl⟩

/-- C3: the two near-duplicate Dashboard aggregators disagree. On a single
record with margin percentage -7, the rolling-average variant classifies
at-risk while the latest-year variant classifies stable. -/
theorem duplicate_aggregators_disagree :
    (mkSummary sampleDiverge oA).map HealthSummary.health = some "at-risk" ∧
    dashHealth sampleDiverge oA = some "stable" ∧
    ("at-risk" : String) ≠ "stable" :=
  ⟨by with_unfolding_all rfl, by with_unfolding_all rfl, by decide⟩

/-- C5: for an organization with at least one record, the rolling window has
exactly min(3, recordCount) records, the window and the dropped remainder
together are a permutation of the organization records, every window record
is at least as recent as every dropped record, and the averages are the
means over the window with null treated as 0. -/
theorem rolling_window_spec (fs : List FinRecord) (oid : Nat)
    (_h : fs.filter (fun f => f.organization_id = oid) ≠ []) :
    (window fs oid).length = min 3 (fs.filter (fun f => f.organization_id = oid)).length ∧
    List.Perm (window fs oid ++ (orgFinancials fs oid).drop 3)
      (fs.filter (fun f => f.organization_id = oid)) ∧
    (∀ w ∈ window fs oid, ∀ d ∈ (orgFinancials fs oid).drop 3, d.year ≤ w.year) ∧
    avgRevenue fs oid
      = ((window fs oid).map (fun f => Option.getD f.revenue 0)).sum / (window fs oid).length ∧
    avgExpenses fs oid
      = ((window fs oid).map (fun f => Option.getD f.expenses 0)).sum / (window fs oid).length := by
  refine ⟨?_, ?_, ?_, avgRevenue_eq_mean fs oid, avgExpenses_eq_mean fs oid⟩
  · simp [window, orgFinancials, List.length_take, List.length_insertionSort]
  · show (orgFinancials fs oid).take 3 ++ (orgFinancials fs oid).drop 3
      |>.Perm (fs.filter (fun f => f.organization_id = oid))
    rw [List.take_append_drop]
    exact List.perm_insertionSort newerFirst _
  · have hp : List.Pairwise newerFirst (orgFinancials fs oid) :=
      List.sorted_insertionSort newerFirst _
    rw [← List.take_append_drop 3 (orgFinancials fs oid)] at hp
    have hcross := (List.pairwise_append.mp hp).2.2
    intro w hw d hd
    exact hcross w hw d hd

/-- Witness for C5: the rolling window of organization 1 over `sampleWindow`. -/
theorem rolling_window_spec_witness :
    (window sampleWindow 1).length
      = min 3 (sampleWindow.filter (fun f => f.organization_id = 1)).length ∧
    List.Perm (window sampleWindow 1 ++ (orgFinancials sampleWindow 1).drop 3)
      (sampleWindow.filter (fun f => f.organization_id = 1)) ∧
    (∀ w ∈ window sampleWindow 1, ∀ d ∈ (orgFinancials sampleWindow 1).drop 3,
      d.year ≤ w.year) ∧
    avgRevenue sampleWindow 1
      = ((window sampleWindow 1).map (fun f => Option.getD f.revenue 0)).sum
          / (window sampleWindow 1).length ∧
    avgExpenses sampleWindow 1
      = ((window sampleWindow 1).map (fun f => Option.getD f.expenses 0)).sum
          / (window sampleWindow 1).length :=
  rolling_window_spec sampleWindow 1 (by decide)

/-- A member of a truncated sorted list is a member of the unsorted list. -/
theorem mem_of_mem_take_insertionSort {r : HealthSummary → HealthSummary → Prop}
    [DecidableRel r] {l : List HealthSummary} {n : Nat} {x : HealthSummary}
    (h : x ∈ (l.insertionSort r).take n) : x ∈ l :=
  (List.mem_insertionSort r).mp (List.mem_of_mem_take h)

/-- C6: the assets field of a health summary is the asset value of the single
most recent record with null treated as 0, and when that value is null the
summary can never appear in the topAssets leaderboard. -/
theorem assets_from_latest_record (fs : List FinRecord) (o : Org) (s : HealthSummary)
    (hs : mkSummary fs o = some s) :
    ∃ r ∈ fs.filter (fun f => f.organization_id = o.id),
      (∀ q ∈ fs.filter (fun f => f.organization_id = o.id), q.year ≤ r.year) ∧
      s.assets = r.assets.getD 0 ∧
      (r.assets = none → ∀ vals : List HealthSummary, s ∉ top10Assets vals) := by
  cases hl : orgFinancials fs o.id with
  | nil =>
    unfold mkSummary at hs
    rw [hl] at hs
    simp at hs
  | cons latest t =>
    unfold mkSummary at hs
    rw [hl] at hs
    simp only [List.head?_cons, Option.some.injEq] at hs
    have hmem : latest ∈ fs.filter (fun f => f.organization_id = o.id) := by
      have : latest ∈ orgFinancials fs o.id := by
        rw [hl]; exact List.mem_cons_self latest t
      exact ((List.perm_insertionSort newerFirst _).mem_iff).mp this
    have hmax : ∀ q ∈ fs.filter (fun f => f.organization_id = o.id), q.year ≤ latest.year := by
      have hp : List.Pairwise newerFirst (orgFinancials fs o.id) :=
        List.sorted_insertionSort newerFirst _
      rw [hl] at hp
      intro q hq
      have : q ∈ orgFinancials fs o.id :=
        ((List.perm_insertionSort newerFirst _).mem_iff).mpr hq
      rw [hl] at this
      rcases List.mem_cons.mp this with rfl | hqt
      · exact le_refl _
      · exact (List.pairwise_cons.mp hp).1 q hqt
    refine ⟨latest, hmem, hmax, ?_, ?_⟩
    · rw [← hs]
    · intro hnone vals hin
      have hsv : s ∈ vals.filter (fun o => 0 < o.assets) :=
        mem_of_mem_take_insertionSort hin
      have hpos : 0 < s.assets := by simpa using (List.mem_filter.mp hsv).2
      have hzero : s.assets = 0 := by rw [← hs, hnone]; rfl
      rw [hzero] at hpos
      exact lt_irrefl 0 hpos

/-- Witness for C6: over `sampleNullAssets` the summary of organization 1 has
assets 0, taken from its only (hence most recent) record whose assets column
is null, and is excluded from every topAssets leaderboard. -/
theorem assets_from_latest_record_witness :
    ∃ r ∈ sampleNullAssets.filter (fun f => f.organization_id = oA.id),
      (∀ q ∈ sampleNullAssets.filter (fun f => f.organization_id = oA.id), q.year ≤ r.year) ∧
      summaryNullAssets.assets = r.assets.getD 0 ∧
      (r.assets = none → ∀ vals : List HealthSummary, summaryNullAssets ∉ top10Assets vals) :=
  assets_from_latest_record sampleNullAssets oA summaryNullAssets (by with_unfolding_all rfl)

/-- C7: leaderboard filter and size invariants. Every strongestMargin or
weakestMargin entry has averaged revenue at least 50000 and those lists have
at most 5 entries; every topAssets entry has positive assets; topRevenue has
at most 10 entries; and each list is no longer than its pool of eligible
organizations. -/
theorem leaderboard_invariants (orgs : List Org) (fs : List FinRecord) :
    (∀ s ∈ strongest (orgHealthValues orgs fs), 50000 ≤ s.revenue) ∧
    (∀ s ∈ weakest (orgHealthValues orgs fs), 50000 ≤ s.revenue) ∧
    (∀ s ∈ top10Assets (orgHealthValues orgs fs), 0 < s.assets) ∧
    (strongest (orgHealthValues orgs fs)).length ≤ 5 ∧
    (weakest (orgHealthValues orgs fs)).length ≤ 5 ∧
    (top10Revenue (orgHealthValues orgs fs)).length ≤ 10 ∧
    (strongest (orgHealthValues orgs fs)).length
      ≤ ((orgHealthValues orgs fs).filter (fun o => 50000 ≤ o.revenue)).length ∧
    (weakest (orgHealthValues orgs fs)).length
      ≤ ((orgHealthValues orgs fs).filter (fun o => 50000 ≤ o.revenue)).length ∧
    (top10Assets (orgHealthValues orgs fs)).length
      ≤ ((orgHealthValues orgs fs).filter (fun o => 0 < o.assets)).length ∧
    (top10Revenue (orgHealthValues orgs fs)).length ≤ (orgHealthValues orgs fs).length := by
  refine ⟨?_, ?_, ?_, ?_, ?_, ?_, ?_, ?_, ?_, ?_⟩
  · intro s hsm
    have := List.mem_filter.mp (mem_of_mem_take_insertionSort hsm)
    simpa using this.2
  · intro s hsm
    have := List.mem_filter.mp (mem_of_mem_take_insertionSort hsm)
    simpa using this.2
  · intro s hsm
    have := List.mem_filter.mp (mem_of_mem_take_insertionSort hsm)
    simpa using this.2
  · simp only [strongest, List.length_take, List.length_insertionSort]
    omega
  · simp only [weakest, List.length_take, List.length_insertionSort]
    omega
  · simp only [top10Revenue, List.length_take, List.length_insertionSort]
    omega
  · simp only [strongest, List.length_take, List.length_insertionSort]
    omega
  · simp only [weakest, List.length_take, List.length_insertionSort]
    omega
  · simp only [top10Assets, List.length_take, List.length_insertionSort]
    omega
  · simp only [top10Revenue, List.length_take, List.length_insertionSort]
    omega

/-- A summary produced by mkSummary carries the id of its organization, a
health value produced by the classifier, and certifies that the organization
has at least one financial record. -/
theorem mkSummary_fields (fs : List FinRecord) (o : Org) (s : HealthSummary)
    (hs : mkSummary fs o = some s) :
    s.id = o.id ∧ s.health = classify (marginPercent fs o.id) ∧
    fs.filter (fun f => f.organization_id = o.id) ≠ [] := by
  cases hl : orgFinancials fs o.id with
  | nil =>
    unfold mkSummary at hs
    rw [hl] at hs
    simp at hs
  | cons latest t =>
    unfold mkSummary at hs
    rw [hl] at hs
    simp only [List.head?_cons, Option.some.injEq] at hs
    refine ⟨by rw [← hs], by rw [← hs], ?_⟩
    intro hf
    have h0 : orgFinancials fs o.id = [] := by
      unfold orgFinancials
      rw [hf]
      rfl
    rw [hl] at h0
    exact List.noConfusion h0

/-- The classifier only produces the three health strings. -/
theorem classify_cases (m : ℚ) :
    classify m = "healthy" ∨ classify m = "stable" ∨ classify m = "at-risk" := by
  unfold classify
  split_ifs <;> simp

/-- The three health counts add up to the number of summaries when every
summary carries one of the three health strings. -/
theorem healthCounts_sum (vals : List HealthSummary)
    (h : ∀ s ∈ vals, s.health = "healthy" ∨ s.health = "stable" ∨ s.health = "at-risk") :
    (healthCounts vals).1 + (healthCounts vals).2.1 + (healthCounts vals).2.2
      = vals.length := by
  induction vals with
  | nil => rfl
  | cons a t ih =>
    have ih' := ih (fun s hsm => h s (List.mem_cons_of_mem a hsm))
    simp only [healthCounts] at ih' ⊢
    rcases h a (List.mem_cons_self a t) with ha | ha | ha <;>
      simp [List.filter_cons, ha] <;> omega

/-- Each sizeStep increments exactly one bucket. -/
theorem sizeDistribution_foldl_sum (vals : List HealthSummary) :
    ∀ c : Nat × Nat × Nat,
      (vals.foldl sizeStep c).1 + (vals.foldl sizeStep c).2.1 + (vals.foldl sizeStep c).2.2
        = c.1 + c.2.1 + c.2.2 + vals.length := by
  induction vals with
  | nil => intro c; simp
  | cons a t ih =>
    intro c
    simp only [List.foldl_cons]
    rw [ih]
    unfold sizeStep
    split_ifs <;> simp <;> omega

/-- The three size buckets add up to the number of summaries. -/
theorem sizeDistribution_sum (vals : List HealthSummary) :
    (sizeDistribution vals).1 + (sizeDistribution vals).2.1 + (sizeDistribution vals).2.2
      = vals.length := by
  have := sizeDistribution_foldl_sum vals (0, 0, 0)
  simpa [sizeDistribution] using this

/-- C8: an organization with zero financial records contributes no entry to
the health mapping, none of the four leaderboards contains an entry with its
id, the health counts and size buckets together count exactly the summarized
organizations (so the omitted organization is counted in neither), and the
raw orgCount of the result still counts it among all organizations. -/
theorem zero_record_org_excluded (orgs : List Org) (fs : List FinRecord) (o : Org)
    (_ho : o ∈ orgs)
    (hf : fs.filter (fun f => f.organization_id = o.id) = []) :
    (∀ s ∈ orgHealthValues orgs fs, s.id ≠ o.id) ∧
    (∀ s ∈ top10Revenue (orgHealthValues orgs fs), s.id ≠ o.id) ∧
    (∀ s ∈ top10Assets (orgHealthValues orgs fs), s.id ≠ o.id) ∧
    (∀ s ∈ strongest (orgHealthValues orgs fs), s.id ≠ o.id) ∧
    (∀ s ∈ weakest (orgHealthValues orgs fs), s.id ≠ o.id) ∧
    ((healthCounts (orgHealthValues orgs fs)).1
      + (healthCounts (orgHealthValues orgs fs)).2.1
      + (healthCounts (orgHealthValues orgs fs)).2.2
      = (orgHealthValues orgs fs).length) ∧
    ((sizeDistribution (orgHealthValues orgs fs)).1
      + (sizeDistribution (orgHealthValues orgs fs)).2.1
      + (sizeDistribution (orgHealthValues orgs fs)).2.2
      = (orgHealthValues orgs fs).length) ∧
    (∀ st, calculateStats orgs fs = Except.ok st → st.orgCount = orgs.length) := by
  have hnot : ∀ s ∈ orgHealthValues orgs fs, s.id ≠ o.id := by
    intro s hsv heq
    obtain ⟨o', ho', hmk⟩ := List.mem_filterMap.mp hsv
    obtain ⟨hid, _, hne⟩ := mkSummary_fields fs o' s hmk
    apply hne
    rw [hid] at heq
    rw [heq]
    exact hf
  refine ⟨hnot, ?_, ?_, ?_, ?_, ?_, ?_, ?_⟩
  · intro s hsm
    exact hnot s (mem_of_mem_take_insertionSort hsm)
  · intro s hsm
    exact hnot s (List.mem_filter.mp (mem_of_mem_take_insertionSort hsm)).1
  · intro s hsm
    exact hnot s (List.mem_filter.mp (mem_of_mem_take_insertionSort hsm)).1
  · intro s hsm
    exact hnot s (List.mem_filter.mp (mem_of_mem_take_insertionSort hsm)).1
  · apply healthCounts_sum
    intro s hsv
    obtain ⟨o', _, hmk⟩ := List.mem_filterMap.mp hsv
    obtain ⟨_, hh, _⟩ := mkSummary_fields fs o' s hmk
    rw [hh]
    exact classify_cases (marginPercent fs o'.id)
  · exact sizeDistribution_sum (orgHealthValues orgs fs)
  · intro st hst
    unfold calculateStats at hst
    split at hst
    · exact Except.noConfusion hst
    · rw [← Except.ok.inj hst]

/-- Witness for C8: organization 1 of `sampleOrgs` has no record in
`sampleOrgsFin`, so it is excluded everywhere while orgCount still counts
both organizations. -/
theorem zero_record_org_excluded_witness :
    (∀ s ∈ orgHealthValues sampleOrgs sampleOrgsFin, s.id ≠ oA.id) ∧
    (∀ s ∈ top10Revenue (orgHealthValues sampleOrgs sampleOrgsFin), s.id ≠ oA.id) ∧
    (∀ s ∈ top10Assets (orgHealthValues sampleOrgs sampleOrgsFin), s.id ≠ oA.id) ∧
    (∀ s ∈ strongest (orgHealthValues sampleOrgs sampleOrgsFin), s.id ≠ oA.id) ∧
    (∀ s ∈ weakest (orgHealthValues sampleOrgs sampleOrgsFin), s.id ≠ oA.id) ∧
    ((healthCounts (orgHealthValues sampleOrgs sampleOrgsFin)).1
      + (healthCounts (orgHealthValues sampleOrgs sampleOrgsFin)).2.1
      + (healthCounts (orgHealthValues sampleOrgs sampleOrgsFin)).2.2
      = (orgHealthValues sampleOrgs sampleOrgsFin).length) ∧
    ((sizeDistribution (orgHealthValues sampleOrgs sampleOrgsFin)).1
      + (sizeDistribution (orgHealthValues sampleOrgs sampleOrgsFin)).2.1
      + (sizeDistribution (orgHealthValues sampleOrgs sampleOrgsFin)).2.2
      = (orgHealthValues sampleOrgs sampleOrgsFin).length) ∧
    (∀ st, calculateStats sampleOrgs sampleOrgsFin = Except.ok st
      → st.orgCount = sampleOrgs.length) :=
  zero_record_org_excluded sampleOrgs sampleOrgsFin oA (by decide) (by decide)

/-- C9: when the averaged revenue is 0, the margin computation short-circuits
to a defined 0 instead of dividing by zero. -/
theorem margin_zero_on_zero_revenue (fs : List FinRecord) (oid : Nat)
    (h : avgRevenue fs oid = 0) : marginPercent fs oid = 0 := by
  unfold marginPercent
  rw [h]
  simp

/-- Witness for C9: a record with null revenue has averaged revenue 0 and
margin percentage 0. -/
theorem margin_zero_on_zero_revenue_witness :
    avgRevenue sampleZeroRevenue 1 = 0 ∧ marginPercent sampleZeroRevenue 1 = 0 :=
  ⟨by with_unfolding_all rfl,
   margin_zero_on_zero_revenue sampleZeroRevenue 1 (by with_unfolding_all rfl)⟩

/-- C10: if the most recent financial record of an organization has a null
revenue or a null assets value, the OrgProfile financial overview throws a
TypeError on the unguarded toLocaleString call. -/
theorem orgprofile_null_amount_throws (financials : List FinRecord)
    (latest : FinRecord) (hh : financials.head? = some latest)
    (hn : latest.revenue = none ∨ latest.assets = none) :
    renderFinancialOverview financials = Except.error "TypeError" := by
  cases financials with
  | nil => simp at hh
  | cons f t =>
    simp only [List.head?_cons, Option.some.injEq] at hh
    subst hh
    unfold renderFinancialOverview
    simp only [List.head?_cons]
    rcases hn with hn | hn
    · rw [hn]
      rfl
    · rw [hn]
      cases hr : f.revenue with
      | none => rfl
      | some q => rfl

/-- Witness for C10: a financials list whose most recent record has null
revenue makes the rendering throw. -/
theorem orgprofile_null_amount_throws_witness :
    sampleProfile.head? = some ⟨1, 2022, none, some 5, some 3⟩ ∧
    renderFinancialOverview sampleProfile = Except.error "TypeError" :=
  ⟨rfl, orgprofile_null_amount_throws sampleProfile ⟨1, 2022, none, some 5, some 3⟩ rfl
    (Or.inl rfl)⟩

end Ecocensus
